import Mathlib

set_option autoImplicit false

/-!
Verification of the compositing, export, state-propagation and error-policy
logic of the background-remover app (src/app.py), as a shallow embedding.

External collaborators (the Pillow imaging library, the rembg removal model,
the streamlit runtime and the st_cropper widget) are modelled by explicit
data: images are pixel grids, the documented Pillow paste/convert/save
semantics are embedded as pure functions, and the outcome of each fallible
external call in one processing pass is a parameter of the pipeline.
-/

/-- An RGBA pixel; each channel is a byte value 0..255. -/
structure Pixel where
  r : Nat
  g : Nat
  b : Nat
  a : Nat
deriving Repr, DecidableEq

/-- The Pillow image modes that can flow through this app. -/
inductive Mode
  | RGB
  | RGBA
  | L
  | P
deriving Repr, DecidableEq

/-- A decoded image: pixel dimensions, mode, and a pixel grid.
For modes without an alpha band the stored `a` is 255; for mode L the
stored `r`, `g`, `b` agree (the gray value); for mode P the stored rgb is
the palette-resolved color. -/
structure Img where
  width : Nat
  height : Nat
  mode : Mode
  px : Nat → Nat → Pixel

/-- All channel values of every pixel are bytes. -/
def Img.wf (img : Img) : Prop :=
  ∀ x y, (img.px x y).r ≤ 255 ∧ (img.px x y).g ≤ 255 ∧
    (img.px x y).b ≤ 255 ∧ (img.px x y).a ≤ 255

/-- Whether a mode carries a transparency channel. -/
def Mode.hasAlpha : Mode → Bool
  | .RGBA => true
  | _ => false

/-- The rgb part of a pixel. -/
def Pixel.rgb (p : Pixel) : Nat × Nat × Nat := (p.r, p.g, p.b)

/-- A color triple with byte channels. -/
def validColor (c : Nat × Nat × Nat) : Prop :=
  c.1 ≤ 255 ∧ c.2.1 ≤ 255 ∧ c.2.2 ≤ 255

/-- Pillow byte multiply-divide: MULDIV255(x, y) with t = x*y + 128 is
((t >> 8) + t) >> 8, the rounding approximation of x*y/255 used by the
paste/blend inner loop. -/
def mulDiv255 (x y : Nat) : Nat :=
  ((x * y + 128) / 256 + (x * y + 128)) / 256

/-- One channel of the Pillow BLEND macro: background weighted by 255-a
plus source weighted by a. -/
def blendChannel (bgc fgc a : Nat) : Nat :=
  mulDiv255 bgc (255 - a) + mulDiv255 fgc a

/-- Image.new("RGB", (w, h), c): an opaque image filled with color c.
Models line 85 of src/app.py. -/
def imageNewRGB (w h : Nat) (c : Nat × Nat × Nat) : Img :=
  { width := w
    height := h
    mode := Mode.RGB
    px := fun _ _ => ⟨c.1, c.2.1, c.2.2, 255⟩ }

/-- bg.paste(fg, (0, 0), fg): paste fg onto bg at origin using the alpha
band of fg as the mask, alpha-blending each covered pixel with the Pillow
BLEND macro. The destination keeps its own mode (and hence stays opaque
when it is an RGB image). Models line 87 of src/app.py. -/
def pasteMasked (bg fg : Img) : Img :=
  { bg with px := fun x y =>
      if x < fg.width ∧ y < fg.height then
        let p := fg.px x y
        let q := bg.px x y
        ⟨blendChannel q.r p.r p.a, blendChannel q.g p.g p.a,
         blendChannel q.b p.b p.a, q.a⟩
      else bg.px x y }

/-- bg.paste(fg, (0, 0)) with no mask: the source is converted to the
mode of the destination (dropping its alpha band) and copied over the
covered region. Models line 92 of src/app.py. -/
def pasteUnmasked (bg fg : Img) : Img :=
  { bg with px := fun x y =>
      if x < fg.width ∧ y < fg.height then
        let p := fg.px x y
        ⟨p.r, p.g, p.b, (bg.px x y).a⟩
      else bg.px x y }

/-- The compositing step on its success path (lines 85-87 of src/app.py):
a fresh opaque background of the same size as the foreground, filled with
the color, with the foreground alpha-pasted onto it at the origin. -/
def applyBackground (fg : Img) (c : Nat × Nat × Nat) : Img :=
  pasteMasked (imageNewRGB fg.width fg.height c) fg

/-- Hex value of one character, as accepted by int(-, 16). -/
def hexVal (c : Char) : Option Nat :=
  if '0' ≤ c ∧ c ≤ '9' then some (c.toNat - '0'.toNat)
  else if 'a' ≤ c ∧ c ≤ 'f' then some (c.toNat - 'a'.toNat + 10)
  else if 'A' ≤ c ∧ c ≤ 'F' then some (c.toNat - 'A'.toNat + 10)
  else none

/-- int(s, 16) on a slice of at most two characters; the empty slice is a
parse error (ValueError in Python). -/
def intHex2 : List Char → Option Nat
  | [c] => hexVal c
  | [c1, c2] =>
    match hexVal c1, hexVal c2 with
    | some h1, some h2 => some (16 * h1 + h2)
    | _, _ => none
  | _ => none

/-- s.lstrip("#"): drop every leading hash character. -/
def lstripHash (s : String) : List Char :=
  s.toList.dropWhile (fun c => c = '#')

/-- Lines 83-84 of src/app.py: strip the leading hash, then parse the
slices [0:2], [2:4], [4:6] as two-digit hex bytes: the (r, g, b) triple,
or none when int(-, 16) raises. -/
def hexToRGB (s : String) : Option (Nat × Nat × Nat) :=
  let cs := lstripHash s
  match intHex2 (cs.take 2), intHex2 ((cs.drop 2).take 2),
        intHex2 ((cs.drop 4).take 2) with
  | some r, some g, some b => some (r, g, b)
  | _, _, _ => none

example : hexToRGB "#FF0000" = some (255, 0, 0) := by decide
example : hexToRGB "#FFFFFF" = some (255, 255, 255) := by decide
example : hexToRGB "#1a2B3c" = some (26, 43, 60) := by decide

/-- The streamlit session state used by the app: the persistent
selected_color slot (lines 19-20 of src/app.py). -/
structure SessionState where
  selected_color : String
deriving Repr, DecidableEq

/-- First-run initialization (lines 19-20): default white. -/
def initSession : SessionState := ⟨"#FFFFFF"⟩

/-- The user interactions that write the selected_color slot: the three
preset buttons (lines 33-38) and a change event of the color picker
(lines 41-50, whose on_change handler copies the ephemeral widget value
into the slot before the next pass runs). -/
inductive ColorEvent
  | presetRed
  | presetBlue
  | presetWhite
  | pickerChange (value : String)

/-- The state transition each color event performs on the session. -/
def applyColorEvent (_s : SessionState) : ColorEvent → SessionState
  | .presetRed => ⟨"#FF0000"⟩
  | .presetBlue => ⟨"#0000FF"⟩
  | .presetWhite => ⟨"#FFFFFF"⟩
  | .pickerChange v => ⟨v⟩

/-- Whether a string is a valid 24-bit RGB hex color: a hash followed by
exactly six hex digits. The streamlit color picker only ever reports such
strings. -/
def isValidHexColor (s : String) : Bool :=
  match s.toList with
  | '#' :: rest => rest.length = 6 && rest.all (fun c => (hexVal c).isSome)
  | _ => false

/-- The value a color event writes is itself a valid hex color: true by
construction for the presets, and a property of the picker widget for a
picker change. -/
def eventColorValid : ColorEvent → Bool
  | .pickerChange v => isValidHexColor v
  | _ => true

/-- The three values of the crop selectbox (lines 54-56 of src/app.py). -/
inductive CropChoice
  | noCrop
  | square
  | passport
deriving Repr, DecidableEq

/-- The label string of each selectbox entry. -/
def cropChoiceLabel : CropChoice → String
  | .noCrop => "No Crop"
  | .square => "1:1 (Square)"
  | .passport => "35:45 (Passport)"

/-- Lines 58-62: the aspect-ratio constraint handed to the crop widget. -/
def aspectRatioOf : CropChoice → Option (Nat × Nat)
  | .noCrop => none
  | .square => some (1, 1)
  | .passport => some (35, 45)

/-- Line 113: the identity key of the crop widget, built from the
uploaded filename and the crop selection only. -/
def cropperKey (uploadedName : String) (choice : CropChoice) : String :=
  "cropper_" ++ uploadedName ++ "_" ++ cropChoiceLabel choice

/-- A Python exception as the pipeline sees it: a ValueError or any other
exception class, with its message. -/
inductive PyExc
  | valueError (msg : String)
  | otherError (msg : String)
deriving Repr, DecidableEq

/-- The message of an exception. -/
def PyExc.message : PyExc → String
  | .valueError m => m
  | .otherError m => m

/-- A PNG byte sequence. PNG encoding is lossless, so the bytes are
modelled by the image they encode. -/
structure PNGBytes where
  encoded : Img

/-- image.save(buf, format="PNG"). -/
def encodePNG (img : Img) : PNGBytes := ⟨img⟩

/-- Decoding a PNG byte sequence back to an image. -/
def decodePNG (b : PNGBytes) : Img := b.encoded

/-- image.convert("RGB"): same pixel grid reinterpreted in mode RGB; any
alpha band is dropped (every pixel becomes opaque). -/
def convertRGB (img : Img) : Img :=
  { img with
    mode := Mode.RGB
    px := fun x y =>
      let p := img.px x y
      ⟨p.r, p.g, p.b, 255⟩ }

/-- Lines 130-138 of src/app.py: if the final image is in mode RGBA it is
saved to PNG directly; otherwise it is first converted to RGB when it is
not already RGB, then saved to PNG. -/
def finalizeForExport (img : Img) : PNGBytes :=
  if img.mode = Mode.RGBA then encodePNG img
  else if img.mode ≠ Mode.RGB then encodePNG (convertRGB img)
  else encodePNG img

/-- Lines 142-145: uploaded_file.name.rsplit(".", 1)[0], the name with
everything from the final dot removed, or the whole name when it has no
dot. -/
def rsplitDotFirst (s : String) : String :=
  match s.toList.reverse.dropWhile (fun c => c ≠ '.') with
  | [] => s
  | _ :: rest => ⟨rest.reverse⟩

example : rsplitDotFirst "photo.final.png" = "photo.final" := by decide
example : rsplitDotFirst "photo" = "photo" := by decide
example : rsplitDotFirst ".bashrc" = "" := by decide

/-- The outcomes of the external calls made during one processing pass:
what Image.open, rembg remove, the masked paste and the crop widget
return (or raise) on this pass. -/
structure Externals where
  decodeResult : Except PyExc Img
  removeResult : Except PyExc Img
  maskedPasteExc : Option PyExc
  cropResult : Img → Option Img

/-- The download button (lines 149-154 of src/app.py). -/
structure Download where
  label : String
  data : PNGBytes
  file_name : String
  mime : String

/-- What one full run of the script surfaces to the user: the warnings
shown, the exception shown in full (st.error plus st.exception, which
renders the message and the traceback) if one was raised, the final
image displayed, the cropper key used if the crop widget was invoked,
and the download offered. -/
structure RenderOutput where
  warnings : List String
  shownError : Option PyExc
  displayedFinal : Option Img
  cropperKeyUsed : Option String
  download : Option Download

/-- Lines 85-92 of src/app.py: build the color background, try the
alpha-masked paste; on ValueError show a warning and fall back to the
unmasked paste; any other exception propagates. Returns the composite
together with the warnings shown. -/
def compositeStep (fg : Img) (c : Nat × Nat × Nat)
    (pasteExc : Option PyExc) : Except PyExc (Img × List String) :=
  let background := imageNewRGB fg.width fg.height c
  match pasteExc with
  | none => .ok (pasteMasked background fg, [])
  | some (.valueError m) =>
    .ok (pasteUnmasked background fg,
      ["Pasting with alpha mask failed (" ++ m ++ "), attempting direct paste."])
  | some (.otherError m) => .error (.otherError m)

/-- Lines 101-121: the final image is the composite itself under No Crop,
and otherwise whatever the crop widget currently yields (None until the
widget has produced a crop). -/
def finalImageOf (choice : CropChoice) (cropResult : Img → Option Img)
    (composite : Img) : Option Img :=
  if choice = CropChoice.noCrop then some composite else cropResult composite

/-- One full run of the script body (lines 65-167 of src/app.py) given
the session state, the uploaded filename (none when no file is chosen),
the crop selection, and the outcomes of the external calls. Any
exception raised inside the try block lands in the generic handler of
lines 158-164: the error is shown and nothing is displayed or offered
for download. -/
def runPipeline (session : SessionState) (upload : Option String)
    (choice : CropChoice) (ext : Externals) : RenderOutput :=
  match upload with
  | none => ⟨[], none, none, none, none⟩
  | some name =>
    match ext.decodeResult with
    | .error e => ⟨[], some e, none, none, none⟩
    | .ok _input_image =>
      match ext.removeResult with
      | .error e => ⟨[], some e, none, none, none⟩
      | .ok fg =>
        match hexToRGB session.selected_color with
        | none =>
          ⟨[], some (.valueError "invalid literal for int with base 16"),
           none, none, none⟩
        | some c =>
          match compositeStep fg c ext.maskedPasteExc with
          | .error e => ⟨[], some e, none, none, none⟩
          | .ok (img_ready_for_crop, warns) =>
            let keyUsed : Option String :=
              if choice = CropChoice.noCrop then none
              else some (cropperKey name choice)
            match finalImageOf choice ext.cropResult img_ready_for_crop with
            | none =>
              ⟨warns ++ ["Waiting for image processing or cropping..."],
               none, none, keyUsed, none⟩
            | some final_image =>
              ⟨warns, none, some final_image, keyUsed,
               some ⟨"4. Download Final Image", finalizeForExport final_image,
                     rsplitDotFirst name ++ "_processed.png", "image/png"⟩⟩

/-- The Pillow MULDIV255 macro computes round-to-nearest division by 255
on byte products. -/
lemma mulDiv255_eq (x y : Nat) (hx : x ≤ 255) (hy : y ≤ 255) :
    mulDiv255 x y = (x * y + 127) / 255 := by
  unfold mulDiv255
  have hv : x * y ≤ 65025 := by
    calc x * y ≤ 255 * 255 := Nat.mul_le_mul hx hy
    _ = 65025 := by norm_num
  generalize x * y = v at hv ⊢
  omega

/-- Blending with weight zero contributes nothing. -/
lemma mulDiv255_zero (x : Nat) : mulDiv255 x 0 = 0 := by
  simp [mulDiv255]

/-- Blending a byte with full weight returns it unchanged. -/
lemma mulDiv255_full (x : Nat) (hx : x ≤ 255) : mulDiv255 x 255 = x := by
  rw [mulDiv255_eq x 255 hx (le_refl 255)]
  omega

/-- A fully opaque mask pixel makes the blend return the source channel. -/
lemma blendChannel_fullAlpha (bgc fgc : Nat) (hf : fgc ≤ 255) :
    blendChannel bgc fgc 255 = fgc := by
  unfold blendChannel
  simp [mulDiv255_zero, mulDiv255_full fgc hf]

/-- A fully transparent mask pixel makes the blend return the background
channel. -/
lemma blendChannel_transparent (bgc fgc : Nat) (hb : bgc ≤ 255) :
    blendChannel bgc fgc 0 = bgc := by
  unfold blendChannel
  simp [mulDiv255_zero, mulDiv255_full bgc hb]

/-- The blended channel is the proportional mix (fgc * a + bgc * (255 - a))
divided by 255, up to less than one output unit of rounding. -/
lemma blendChannel_proportional (bgc fgc a : Nat)
    (hb : bgc ≤ 255) (hf : fgc ≤ 255) (ha : a ≤ 255) :
    255 * blendChannel bgc fgc a ≤ fgc * a + bgc * (255 - a) + 254 ∧
    fgc * a + bgc * (255 - a) ≤ 255 * blendChannel bgc fgc a + 254 := by
  unfold blendChannel
  rw [mulDiv255_eq bgc (255 - a) hb (by omega), mulDiv255_eq fgc a hf ha]
  have hu : bgc * (255 - a) ≤ 65025 := by
    calc bgc * (255 - a) ≤ 255 * 255 := Nat.mul_le_mul hb (by omega)
    _ = 65025 := by norm_num
  have hv : fgc * a ≤ 65025 := by
    calc fgc * a ≤ 255 * 255 := Nat.mul_le_mul hf ha
    _ = 65025 := by norm_num
  generalize bgc * (255 - a) = u at hu ⊢
  generalize fgc * a = v at hv ⊢
  omega

/-- Claim C1: for every foreground image with a transparency channel and
every valid RGB color triple, applyBackground returns a new opaque image
of the same pixel dimensions as the foreground, filled with the color and
with the foreground painted onto it at the origin using the foreground
alpha band as the mask: fully opaque foreground pixels replace the
background, fully transparent pixels leave the background color, and
partially transparent pixels blend proportionally. -/
theorem applyBackground_spec (fg : Img) (c : Nat × Nat × Nat)
    (_hmode : fg.mode = Mode.RGBA) (hwf : fg.wf) (hc : validColor c) :
    (applyBackground fg c).width = fg.width ∧
    (applyBackground fg c).height = fg.height ∧
    (applyBackground fg c).mode = Mode.RGB ∧
    ∀ x y, x < fg.width → y < fg.height →
      ((applyBackground fg c).px x y).a = 255 ∧
      ((fg.px x y).a = 255 →
        ((applyBackground fg c).px x y).rgb = (fg.px x y).rgb) ∧
      ((fg.px x y).a = 0 →
        ((applyBackground fg c).px x y).rgb = c) ∧
      (255 * ((applyBackground fg c).px x y).r ≤
          (fg.px x y).r * (fg.px x y).a + c.1 * (255 - (fg.px x y).a) + 254 ∧
        (fg.px x y).r * (fg.px x y).a + c.1 * (255 - (fg.px x y).a) ≤
          255 * ((applyBackground fg c).px x y).r + 254) ∧
      (255 * ((applyBackground fg c).px x y).g ≤
          (fg.px x y).g * (fg.px x y).a + c.2.1 * (255 - (fg.px x y).a) + 254 ∧
        (fg.px x y).g * (fg.px x y).a + c.2.1 * (255 - (fg.px x y).a) ≤
          255 * ((applyBackground fg c).px x y).g + 254) ∧
      (255 * ((applyBackground fg c).px x y).b ≤
          (fg.px x y).b * (fg.px x y).a + c.2.2 * (255 - (fg.px x y).a) + 254 ∧
        (fg.px x y).b * (fg.px x y).a + c.2.2 * (255 - (fg.px x y).a) ≤
          255 * ((applyBackground fg c).px x y).b + 254) := by
  obtain ⟨hc1, hc2, hc3⟩ := hc
  refine ⟨rfl, rfl, rfl, ?_⟩
  intro x y hx hy
  obtain ⟨hr, hg, hb, ha⟩ := hwf x y
  have hpx : (applyBackground fg c).px x y =
      ⟨blendChannel c.1 (fg.px x y).r (fg.px x y).a,
       blendChannel c.2.1 (fg.px x y).g (fg.px x y).a,
       blendChannel c.2.2 (fg.px x y).b (fg.px x y).a, 255⟩ := by
    simp [applyBackground, pasteMasked, imageNewRGB, hx, hy]
  refine ⟨by rw [hpx], ?_, ?_, ?_⟩
  · intro hopaque
    rw [hpx]
    simp only [Pixel.rgb, hopaque]
    rw [blendChannel_fullAlpha _ _ hr, blendChannel_fullAlpha _ _ hg,
      blendChannel_fullAlpha _ _ hb]
  · intro htransp
    rw [hpx]
    simp only [Pixel.rgb, htransp]
    rw [blendChannel_transparent _ _ hc1, blendChannel_transparent _ _ hc2,
      blendChannel_transparent _ _ hc3]
  · rw [hpx]
    exact
      ⟨blendChannel_proportional c.1 (fg.px x y).r (fg.px x y).a hc1 hr ha,
       blendChannel_proportional c.2.1 (fg.px x y).g (fg.px x y).a hc2 hg ha,
       blendChannel_proportional c.2.2 (fg.px x y).b (fg.px x y).a hc3 hb ha⟩

/-- A concrete 2 by 1 fully transparent RGBA foreground. -/
def fgWitness : Img := ⟨2, 1, Mode.RGBA, fun _ _ => ⟨10, 20, 30, 0⟩⟩

/-- Witness for C1 at the concrete foreground fgWitness and color red:
the composite is opaque at (0, 0) and shows the background color there. -/
theorem applyBackground_spec_witness :
    (applyBackground fgWitness (255, 0, 0)).width = 2 ∧
    ((applyBackground fgWitness (255, 0, 0)).px 0 0).a = 255 ∧
    ((applyBackground fgWitness (255, 0, 0)).px 0 0).rgb = (255, 0, 0) := by
  have h := applyBackground_spec fgWitness (255, 0, 0) rfl
    (fun x y => show 10 ≤ 255 ∧ 20 ≤ 255 ∧ 30 ≤ 255 ∧ 0 ≤ 255 by decide)
    (show 255 ≤ 255 ∧ 0 ≤ 255 ∧ 0 ≤ 255 by decide)
  have h4 := h.2.2.2 0 0 (by decide) (by decide)
  exact ⟨h.1, h4.1, h4.2.2.1 (by decide)⟩

/-- Claim C2: an RGBA final image is encoded to PNG directly with its
alpha band preserved; a final image in any other non-RGB mode is first
converted to RGB and then encoded; an RGB image is encoded directly. -/
theorem finalizeForExport_spec (img : Img) :
    (img.mode.hasAlpha = true → finalizeForExport img = encodePNG img ∧
      ∀ x y, (decodePNG (finalizeForExport img)).px x y = img.px x y) ∧
    (img.mode.hasAlpha = false → img.mode ≠ Mode.RGB →
      finalizeForExport img = encodePNG (convertRGB img)) ∧
    (img.mode = Mode.RGB → finalizeForExport img = encodePNG img) := by
  cases hm : img.mode <;>
    simp [finalizeForExport, Mode.hasAlpha, hm, decodePNG, encodePNG]

/-- A concrete 1 by 1 grayscale image without an alpha band. -/
def imgLWitness : Img := ⟨1, 1, Mode.L, fun _ _ => ⟨7, 7, 7, 255⟩⟩

/-- Witness for C2 at the concrete grayscale image: it is converted to
RGB before encoding. -/
theorem finalizeForExport_spec_witness :
    finalizeForExport imgLWitness = encodePNG (convertRGB imgLWitness) := by
  exact (finalizeForExport_spec imgLWitness).2.1 rfl (by decide)

/-- Claim C6: decoding the PNG produced by the export step yields an
image of the same pixel dimensions as the input, and for inputs without
a transparency channel the rgb values agree at every pixel. -/
theorem exportRoundTrip (img : Img) :
    (decodePNG (finalizeForExport img)).width = img.width ∧
    (decodePNG (finalizeForExport img)).height = img.height ∧
    (img.mode.hasAlpha = false →
      ∀ x y, ((decodePNG (finalizeForExport img)).px x y).rgb =
        (img.px x y).rgb) := by
  cases hm : img.mode <;>
    simp [finalizeForExport, decodePNG, encodePNG, convertRGB,
      Mode.hasAlpha, hm, Pixel.rgb]

/-- Witness for C6 at the concrete grayscale image: the round trip keeps
its dimensions and its rgb value at (0, 0). -/
theorem exportRoundTrip_witness :
    (decodePNG (finalizeForExport imgLWitness)).width = 1 ∧
    ((decodePNG (finalizeForExport imgLWitness)).px 0 0).rgb = (7, 7, 7) := by
  have h := exportRoundTrip imgLWitness
  exact ⟨h.1, (h.2.2 rfl 0 0).trans rfl⟩

/-- Unfolding of a pass whose upload fails to decode. -/
lemma runPipeline_decode_error (s : SessionState) (name : String)
    (choice : CropChoice) (ext : Externals) (e : PyExc)
    (hd : ext.decodeResult = Except.error e) :
    runPipeline s (some name) choice ext = ⟨[], some e, none, none, none⟩ := by
  unfold runPipeline
  rw [hd]

/-- Unfolding of a pass where background removal raises. -/
lemma runPipeline_remove_error (s : SessionState) (name : String)
    (choice : CropChoice) (ext : Externals) (i : Img) (e : PyExc)
    (hd : ext.decodeResult = Except.ok i)
    (hr : ext.removeResult = Except.error e) :
    runPipeline s (some name) choice ext = ⟨[], some e, none, none, none⟩ := by
  unfold runPipeline
  rw [hd, hr]

/-- Unfolding of a pass where the color string fails to parse. -/
lemma runPipeline_color_error (s : SessionState) (name : String)
    (choice : CropChoice) (ext : Externals) (i fg : Img)
    (hd : ext.decodeResult = Except.ok i)
    (hr : ext.removeResult = Except.ok fg)
    (hc : hexToRGB s.selected_color = none) :
    runPipeline s (some name) choice ext =
      ⟨[], some (.valueError "invalid literal for int with base 16"),
       none, none, none⟩ := by
  unfold runPipeline
  rw [hd, hr, hc]

/-- Unfolding of a pass that reaches the compositing step. -/
lemma runPipeline_eq_of_ok (s : SessionState) (name : String)
    (choice : CropChoice) (ext : Externals) (i fg : Img)
    (c : Nat × Nat × Nat)
    (hd : ext.decodeResult = Except.ok i)
    (hr : ext.removeResult = Except.ok fg)
    (hc : hexToRGB s.selected_color = some c) :
    runPipeline s (some name) choice ext =
      match compositeStep fg c ext.maskedPasteExc with
      | .error e => ⟨[], some e, none, none, none⟩
      | .ok (img_ready_for_crop, warns) =>
        let keyUsed : Option String :=
          if choice = CropChoice.noCrop then none
          else some (cropperKey name choice)
        match finalImageOf choice ext.cropResult img_ready_for_crop with
        | none =>
          ⟨warns ++ ["Waiting for image processing or cropping..."],
           none, none, keyUsed, none⟩
        | some final_image =>
          ⟨warns, none, some final_image, keyUsed,
           some ⟨"4. Download Final Image", finalizeForExport final_image,
                 rsplitDotFirst name ++ "_processed.png", "image/png"⟩⟩ := by
  unfold runPipeline
  rw [hd, hr, hc]

/-- Claim C4: the identity key handed to the crop widget is a function of
the uploaded filename and the crop selection only; two passes over the
same upload and crop selection that differ in the selected background
color use the identical widget key. -/
theorem cropperKey_color_independent (s1 s2 : SessionState) (name : String)
    (choice : CropChoice) (ext : Externals) (c1 c2 : Nat × Nat × Nat)
    (h1 : hexToRGB s1.selected_color = some c1)
    (h2 : hexToRGB s2.selected_color = some c2) :
    (runPipeline s1 (some name) choice ext).cropperKeyUsed =
      (runPipeline s2 (some name) choice ext).cropperKeyUsed := by
  cases hd : ext.decodeResult with
  | error e =>
    rw [runPipeline_decode_error s1 name choice ext e hd,
      runPipeline_decode_error s2 name choice ext e hd]
  | ok i =>
    cases hr : ext.removeResult with
    | error e =>
      rw [runPipeline_remove_error s1 name choice ext i e hd hr,
        runPipeline_remove_error s2 name choice ext i e hd hr]
    | ok fg =>
      rw [runPipeline_eq_of_ok s1 name choice ext i fg c1 hd hr h1,
        runPipeline_eq_of_ok s2 name choice ext i fg c2 hd hr h2]
      cases hp : ext.maskedPasteExc with
      | none =>
        simp only [compositeStep]
        cases finalImageOf choice ext.cropResult
            (pasteMasked (imageNewRGB fg.width fg.height c1) fg) <;>
          cases finalImageOf choice ext.cropResult
              (pasteMasked (imageNewRGB fg.width fg.height c2) fg) <;>
            rfl
      | some e =>
        cases e with
        | valueError m =>
          simp only [compositeStep]
          cases finalImageOf choice ext.cropResult
              (pasteUnmasked (imageNewRGB fg.width fg.height c1) fg) <;>
            cases finalImageOf choice ext.cropResult
                (pasteUnmasked (imageNewRGB fg.width fg.height c2) fg) <;>
              rfl
        | otherError m => rfl

/-- A concrete decoded upload. -/
def imgOkW : Img := ⟨1, 1, Mode.RGB, fun _ _ => ⟨1, 2, 3, 255⟩⟩

/-- A concrete background-removal result with partial transparency. -/
def fgOkW : Img := ⟨1, 1, Mode.RGBA, fun _ _ => ⟨5, 6, 7, 128⟩⟩

/-- Witness for C4: over the same upload and crop choice, the red and the
blue session use the same cropper key. -/
theorem cropperKey_color_independent_witness :
    (runPipeline ⟨"#FF0000"⟩ (some "photo.png") CropChoice.square
        ⟨Except.ok imgOkW, Except.ok fgOkW, none, fun img => some img⟩).cropperKeyUsed =
      (runPipeline ⟨"#0000FF"⟩ (some "photo.png") CropChoice.square
        ⟨Except.ok imgOkW, Except.ok fgOkW, none, fun img => some img⟩).cropperKeyUsed := by
  exact cropperKey_color_independent ⟨"#FF0000"⟩ ⟨"#0000FF"⟩ "photo.png"
    CropChoice.square _ (255, 0, 0) (0, 0, 255) (by decide) (by decide)

/-- Claim C5: each preset click overwrites the persisted color slot with
exactly that preset value, regardless of the prior slot value, and a
picker change event overwrites the slot with the current picker value
before the next pass reads it. -/
theorem colorEvent_overwrites (s : SessionState) (v : String) :
    (applyColorEvent s ColorEvent.presetRed).selected_color = "#FF0000" ∧
    (applyColorEvent s ColorEvent.presetBlue).selected_color = "#0000FF" ∧
    (applyColorEvent s ColorEvent.presetWhite).selected_color = "#FFFFFF" ∧
    (applyColorEvent s (ColorEvent.pickerChange v)).selected_color = v :=
  ⟨rfl, rfl, rfl, rfl⟩

/-- Claim C8: the selected_color slot starts as white and as a valid hex
color; every writer (the three presets, and the picker handler given the
picker reports a valid hex string) preserves validity; and a processing
pass reads the current slot value: a successful uncropped pass displays
the composite built from the color parsed out of the current slot. -/
theorem selectedColor_invariant :
    initSession.selected_color = "#FFFFFF" ∧
    isValidHexColor initSession.selected_color = true ∧
    (∀ (s : SessionState) (e : ColorEvent),
      isValidHexColor s.selected_color = true →
      eventColorValid e = true →
      isValidHexColor (applyColorEvent s e).selected_color = true) ∧
    (∀ (s : SessionState) (name : String) (ext : Externals) (i fg : Img)
       (c : Nat × Nat × Nat),
      ext.decodeResult = Except.ok i →
      ext.removeResult = Except.ok fg →
      hexToRGB s.selected_color = some c →
      ext.maskedPasteExc = none →
      (runPipeline s (some name) CropChoice.noCrop ext).displayedFinal =
        some (applyBackground fg c)) := by
  refine ⟨rfl, by decide, ?_, ?_⟩
  · intro s e hs he
    cases e with
    | presetRed => rfl
    | presetBlue => rfl
    | presetWhite => rfl
    | pickerChange v => exact he
  · intro s name ext i fg c hd hr hc hp
    rw [runPipeline_eq_of_ok s name CropChoice.noCrop ext i fg c hd hr hc, hp]
    rfl

/-- Witness for C8: a picker change to a concrete valid color keeps the
slot valid, via the preservation statement of the invariant theorem. -/
theorem selectedColor_invariant_witness :
    isValidHexColor (applyColorEvent ⟨"#123456"⟩
      (ColorEvent.pickerChange "#ABCDEF")).selected_color = true := by
  exact selectedColor_invariant.2.2.1 ⟨"#123456"⟩
    (ColorEvent.pickerChange "#ABCDEF") (by decide) (by decide)

/-- A pass whose masked paste raises an exception that is not a
ValueError: the decode and removal steps succeed, the paste raises, and
the crop widget has produced nothing. -/
def extPasteOther : Externals :=
  ⟨Except.ok imgOkW, Except.ok fgOkW,
   some (PyExc.otherError "image file is truncated"), fun _ => none⟩

/-- Counterexample to C3 as stated: at this concrete input the
transparency-mask paste fails (with an exception that is not a
ValueError), yet no fallback paste happens and no warning is shown; the
pass aborts into the error state with no download instead of continuing
with a fallback result. -/
theorem maskedPasteFailure_not_always_recovered :
    extPasteOther.maskedPasteExc =
      some (PyExc.otherError "image file is truncated") ∧
    (runPipeline initSession (some "photo.png") CropChoice.noCrop
      extPasteOther).warnings = [] ∧
    (runPipeline initSession (some "photo.png") CropChoice.noCrop
      extPasteOther).shownError =
      some (PyExc.otherError "image file is truncated") ∧
    (runPipeline initSession (some "photo.png") CropChoice.noCrop
      extPasteOther).download = none :=
  ⟨rfl, rfl, rfl, rfl⟩

/-- Claim C3 (amended): whenever the transparency-mask paste fails with a
ValueError, the compositing step recovers locally with an unmasked direct
paste of the foreground over the color background at the origin, shows a
non-fatal warning, and the pass continues with the fallback result (no
error state; the fallback composite is displayed and offered for
download). -/
theorem maskedPasteValueError_fallback (s : SessionState) (name : String)
    (ext : Externals) (i fg : Img) (c : Nat × Nat × Nat) (m : String)
    (hd : ext.decodeResult = Except.ok i)
    (hr : ext.removeResult = Except.ok fg)
    (hc : hexToRGB s.selected_color = some c)
    (hp : ext.maskedPasteExc = some (PyExc.valueError m)) :
    (runPipeline s (some name) CropChoice.noCrop ext).warnings =
      ["Pasting with alpha mask failed (" ++ m ++
        "), attempting direct paste."] ∧
    (runPipeline s (some name) CropChoice.noCrop ext).shownError = none ∧
    (runPipeline s (some name) CropChoice.noCrop ext).displayedFinal =
      some (pasteUnmasked (imageNewRGB fg.width fg.height c) fg) ∧
    (runPipeline s (some name) CropChoice.noCrop ext).download.isSome =
      true := by
  rw [runPipeline_eq_of_ok s name CropChoice.noCrop ext i fg c hd hr hc, hp]
  exact ⟨rfl, rfl, rfl, rfl⟩

/-- A pass whose masked paste raises a ValueError. -/
def extPasteVE : Externals :=
  ⟨Except.ok imgOkW, Except.ok fgOkW,
   some (PyExc.valueError "bad transparency mask"), fun img => some img⟩

/-- Witness for the amended C3 at a concrete pass: the fallback warning
is shown and the pass still produces a download. -/
theorem maskedPasteValueError_fallback_witness :
    (runPipeline initSession (some "a.png") CropChoice.noCrop
      extPasteVE).warnings =
      ["Pasting with alpha mask failed (" ++ "bad transparency mask" ++
        "), attempting direct paste."] ∧
    (runPipeline initSession (some "a.png") CropChoice.noCrop
      extPasteVE).download.isSome = true := by
  have h := maskedPasteValueError_fallback initSession "a.png" extPasteVE
    imgOkW fgOkW (255, 255, 255) "bad transparency mask" rfl rfl
    (by decide) rfl
  exact ⟨h.1, h.2.2.2⟩

/-- Claim C7: every exception raised during decode, background removal or
compositing (an undecodable upload, a removal failure, a color string the
hex parser rejects, or a non-ValueError paste failure) puts the pass in
the error state: the raised exception is surfaced to the user (st.error
plus st.exception render its message and traceback) and no download is
offered for that pass. -/
theorem pipeline_error_state (s : SessionState) (name : String)
    (choice : CropChoice) (ext : Externals) :
    (∀ e : PyExc, ext.decodeResult = Except.error e →
      (runPipeline s (some name) choice ext).shownError = some e ∧
      (runPipeline s (some name) choice ext).download = none) ∧
    (∀ (i : Img) (e : PyExc), ext.decodeResult = Except.ok i →
      ext.removeResult = Except.error e →
      (runPipeline s (some name) choice ext).shownError = some e ∧
      (runPipeline s (some name) choice ext).download = none) ∧
    (∀ (i fg : Img) (c : Nat × Nat × Nat) (m : String),
      ext.decodeResult = Except.ok i → ext.removeResult = Except.ok fg →
      hexToRGB s.selected_color = some c →
      ext.maskedPasteExc = some (PyExc.otherError m) →
      (runPipeline s (some name) choice ext).shownError =
        some (PyExc.otherError m) ∧
      (runPipeline s (some name) choice ext).download = none) ∧
    (∀ i fg : Img, ext.decodeResult = Except.ok i →
      ext.removeResult = Except.ok fg →
      hexToRGB s.selected_color = none →
      ((runPipeline s (some name) choice ext).shownError).isSome = true ∧
      (runPipeline s (some name) choice ext).download = none) := by
  refine ⟨?_, ?_, ?_, ?_⟩
  · intro e hd
    rw [runPipeline_decode_error s name choice ext e hd]
    exact ⟨rfl, rfl⟩
  · intro i e hd hr
    rw [runPipeline_remove_error s name choice ext i e hd hr]
    exact ⟨rfl, rfl⟩
  · intro i fg c m hd hr hc hp
    rw [runPipeline_eq_of_ok s name choice ext i fg c hd hr hc, hp]
    exact ⟨rfl, rfl⟩
  · intro i fg hd hr hc
    rw [runPipeline_color_error s name choice ext i fg hd hr hc]
    exact ⟨rfl, rfl⟩

/-- A pass whose upload is not a decodable image. -/
def extDecodeFail : Externals :=
  ⟨Except.error (PyExc.otherError "cannot identify image file"),
   Except.error (PyExc.otherError "cannot identify image file"),
   none, fun _ => none⟩

/-- Witness for C7: a corrupted upload shows the decode error and offers
no download. -/
theorem pipeline_error_state_witness :
    (runPipeline initSession (some "broken.png") CropChoice.noCrop
      extDecodeFail).shownError =
      some (PyExc.otherError "cannot identify image file") ∧
    (runPipeline initSession (some "broken.png") CropChoice.noCrop
      extDecodeFail).download = none := by
  exact (pipeline_error_state initSession "broken.png" CropChoice.noCrop
    extDecodeFail).1 (PyExc.otherError "cannot identify image file") rfl

/-- Claim C9: whenever a pass reaches the export step, the single
download offered carries media type image/png, is named by the uploaded
filename with its final dot-extension replaced by _processed.png, and its
byte content is the PNG encoding of the final (composited and possibly
cropped) image. -/
theorem download_spec (s : SessionState) (name : String)
    (choice : CropChoice) (ext : Externals) (i fg f : Img)
    (c : Nat × Nat × Nat)
    (hd : ext.decodeResult = Except.ok i)
    (hr : ext.removeResult = Except.ok fg)
    (hc : hexToRGB s.selected_color = some c)
    (hp : ext.maskedPasteExc = none)
    (hf : finalImageOf choice ext.cropResult
        (pasteMasked (imageNewRGB fg.width fg.height c) fg) = some f) :
    (runPipeline s (some name) choice ext).download =
      some ⟨"4. Download Final Image", finalizeForExport f,
            rsplitDotFirst name ++ "_processed.png", "image/png"⟩ := by
  rw [runPipeline_eq_of_ok s name choice ext i fg c hd hr hc, hp]
  simp only [compositeStep]
  rw [hf]

/-- A fully successful pass with an immediately ready crop widget. -/
def extOkW : Externals :=
  ⟨Except.ok imgOkW, Except.ok fgOkW, none, fun img => some img⟩

/-- Witness for C9 at a concrete successful uncropped pass: the download
is the PNG of the composite, named photo_processed.png. -/
theorem download_spec_witness :
    (runPipeline initSession (some "photo.jpg") CropChoice.noCrop
      extOkW).download =
      some ⟨"4. Download Final Image",
            finalizeForExport (applyBackground fgOkW (255, 255, 255)),
            "photo_processed.png", "image/png"⟩ := by
  exact download_spec initSession "photo.jpg" CropChoice.noCrop extOkW
    imgOkW fgOkW (applyBackground fgOkW (255, 255, 255)) (255, 255, 255)
    rfl rfl (by decide) rfl rfl

/-- Claim C10: the unmasked fallback paste is taken exactly when the
masked paste raises a ValueError; a paste failure of any other exception
class skips the fallback and its warning and is handled by the generic
error handler of the pass, which produces no output. -/
theorem maskedPaste_dispatch (s : SessionState) (name : String)
    (ext : Externals) (i fg : Img) (c : Nat × Nat × Nat) (m : String)
    (hd : ext.decodeResult = Except.ok i)
    (hr : ext.removeResult = Except.ok fg)
    (hc : hexToRGB s.selected_color = some c) :
    (ext.maskedPasteExc = some (PyExc.valueError m) →
      compositeStep fg c ext.maskedPasteExc =
        Except.ok (pasteUnmasked (imageNewRGB fg.width fg.height c) fg,
          ["Pasting with alpha mask failed (" ++ m ++
            "), attempting direct paste."]) ∧
      (runPipeline s (some name) CropChoice.noCrop ext).shownError =
        none) ∧
    (ext.maskedPasteExc = some (PyExc.otherError m) →
      (runPipeline s (some name) CropChoice.noCrop ext).warnings = [] ∧
      (runPipeline s (some name) CropChoice.noCrop ext).shownError =
        some (PyExc.otherError m) ∧
      (runPipeline s (some name) CropChoice.noCrop ext).download =
        none) := by
  constructor
  · intro hp
    rw [hp]
    refine ⟨rfl, ?_⟩
    rw [runPipeline_eq_of_ok s name CropChoice.noCrop ext i fg c hd hr hc,
      hp]
    rfl
  · intro hp
    rw [runPipeline_eq_of_ok s name CropChoice.noCrop ext i fg c hd hr hc,
      hp]
    exact ⟨rfl, rfl, rfl⟩

/-- Witness for C10 at a concrete pass whose masked paste raises a
ValueError: the compositing step returns the fallback paste with the
warning. -/
theorem maskedPaste_dispatch_witness :
    compositeStep fgOkW (255, 255, 255) extPasteVE.maskedPasteExc =
      Except.ok (pasteUnmasked (imageNewRGB 1 1 (255, 255, 255)) fgOkW,
        ["Pasting with alpha mask failed (" ++ "bad transparency mask" ++
          "), attempting direct paste."]) := by
  exact ((maskedPaste_dispatch initSession "a.png" extPasteVE imgOkW fgOkW
    (255, 255, 255) "bad transparency mask" rfl rfl (by decide)).1 rfl).1
